import Mathlib

/-!
Verification of the session-orchestration module
(`backend/api/v1/automation.py`) of the LegalEase repository.

The Python module is shallowly embedded: the pure intent classifier is a
Lean function, the stateful websocket command loop becomes an explicit
step function over a session record and a global state record, the
fallible collaborators (the browser agent run and the OpenAI reply call)
are passed in as `Except`-valued oracles, and every outbound
`send_status` payload is modelled by an `Event` record that snapshots the
fields the source serialises.
-/

set_option autoImplicit false

namespace LegalEase

/-- Python `str.lower()` restricted to the character-wise lowering the
keyword strings of the classifier need. -/
def toLowerStr (s : String) : String :=
  ⟨s.data.map Char.toLower⟩

/-- Auxiliary scan for substring containment: `subList needle hay` holds
when `needle` occurs contiguously in `hay` (the empty needle always occurs). -/
def subList (needle : List Char) : List Char → Bool
  | [] => needle.isEmpty
  | c :: rest => needle.isPrefixOf (c :: rest) || subList needle rest

/-- Python `needle in hay` substring containment. -/
def containsSub (hay needle : String) : Bool :=
  subList needle.data hay.data

/-- Embeds `any(keyword in m for keyword in kws)` from `analyze_user_intent`. -/
def anyKeyword (kws : List String) (m : String) : Bool :=
  kws.any (fun k => containsSub m k)

/-- The tax-filing keyword group of `analyze_user_intent` (line 102). -/
def tax_keywords : List String :=
  ["tax", "itr", "income tax", "filing", "return", "assessment", "tax return", "file itr"]

/-- The form-filling keyword group of `analyze_user_intent` (line 125). -/
def form_keywords : List String :=
  ["form", "application", "government", "fill", "submit", "portal", "government portal"]

/-- The help/guidance keyword group of `analyze_user_intent` (line 135). -/
def help_keywords : List String :=
  ["help", "guide", "how", "what", "explain", "understand", "learn"]

/-- The action keywords that refine a tax match to `start_filing` (line 112). -/
def start_actions : List String :=
  ["start", "begin", "file", "submit"]

/-- The action keywords that refine a tax match to `check_status` (line 115). -/
def check_actions : List String :=
  ["check", "status", "verify", "review"]

/-- The action keywords that refine a tax match to `help_guide` (line 118). -/
def help_actions : List String :=
  ["help", "guide", "how", "explain"]

/-- The `intent_data` dictionary returned by `analyze_user_intent`.
Confidences are the exact decimal constants of the source, as rationals. -/
structure IntentData where
  intent : String
  requires_automation : Bool
  task_type : String
  confidence : ℚ
  action : Option String
  deriving DecidableEq, Repr

/-- Embeds `analyze_user_intent` (automation.py lines 97-150): scan the tax,
form, and help keyword groups in that order over the lowercased message;
a tax match is refined by a secondary action scan; no match falls through
to the default chat classification. -/
def analyze_user_intent (user_message : String) : IntentData :=
  let m := toLowerStr user_message
  if anyKeyword tax_keywords m then
    if anyKeyword start_actions m then
      ⟨"tax_filing", true, "tax_filing", 0.95, some "start_filing"⟩
    else if anyKeyword check_actions m then
      ⟨"tax_filing", true, "tax_filing", 0.8, some "check_status"⟩
    else if anyKeyword help_actions m then
      ⟨"tax_filing", true, "tax_filing", 0.7, some "help_guide"⟩
    else
      ⟨"tax_filing", true, "tax_filing", 0.9, none⟩
  else if anyKeyword form_keywords m then
    ⟨"form_filling", true, "form_filling", 0.8, none⟩
  else if anyKeyword help_keywords m then
    ⟨"help", false, "chat", 0.6, none⟩
  else
    ⟨"chat", false, "chat", 0.5, none⟩

/-- The mutable per-session state of class `AutomationSession`
(automation.py lines 66-77).  The agent handle and the screenshot task are
modelled by their presence only (`Option Unit`): no claim inspects their
contents, and `cleanup_session` branches only on their truthiness. -/
structure AutomationSession where
  session_id : String
  status : String
  current_task : Option String
  step_count : Nat
  current_step : Option String
  error : Option String
  agent : Option Unit
  screenshot_task : Option Unit
  deriving DecidableEq, Repr

/-- Embeds `AutomationSession.__init__`: a fresh session is `connected` with all
nullable fields `None` and a zero step counter. -/
def AutomationSession.init (session_id : String) : AutomationSession :=
  ⟨session_id, "connected", none, 0, none, none, none, none⟩

/-- The projection of a `send_status` payload that the claims inspect:
the event `type`, the `message`, the snapshot of the session `status`
taken when the payload is built, and the optional `error_type` and
`recoverable` extras. -/
structure Event where
  type : String
  message : String
  status : String
  error_type : Option String
  recoverable : Option Bool
  deriving DecidableEq, Repr

/-- Embeds `AutomationSession.send_status` (lines 79-95): serialise an event
with a snapshot of the current session status.  (Transport failures are
swallowed by the source; the event value itself is what we observe.) -/
def AutomationSession.send_status (s : AutomationSession) (t msg : String)
    (error_type : Option String) (recoverable : Option Bool) : Event :=
  ⟨t, msg, s.status, error_type, recoverable⟩

/-- One entry of a per-session OpenAI conversation history. -/
structure ChatMsg where
  role : String
  content : String
  deriving DecidableEq, Repr

/-- An association list standing for a Python dict (keyed by session id).
Keys are unique in practice; update replaces in place, like dict assignment. -/
abbrev Table (α : Type) := List (String × α)

/-- Python `d[k]` lookup returning `none` on a missing key. -/
def lookupKey {α : Type} : Table α → String → Option α
  | [], _ => none
  | p :: rest, id => if p.1 = id then some p.2 else lookupKey rest id

/-- Python `d[k] = v` assignment: replace in place or append. -/
def setKey {α : Type} : Table α → String → α → Table α
  | [], id, v => [(id, v)]
  | p :: rest, id, v => if p.1 = id then (id, v) :: rest else p :: setKey rest id v

/-- Python `del d[k]` (and, applied to an absent key, a no-op; the source
always guards the `del` with a membership test). -/
def eraseKey {α : Type} : Table α → String → Table α
  | [], _ => []
  | p :: rest, id => if p.1 = id then eraseKey rest id else p :: eraseKey rest id

/-- The system prompt installed for a fresh chat history (lines 161-166). -/
def SYSTEM_PROMPT : String :=
  "You are a helpful AI assistant for LegalEase, specializing in legal automation, tax filing, and document processing. When users ask about tax filing or automation tasks, guide them appropriately. Be concise and helpful."

/-- The fallback text returned when the OpenAI call raises (line 194). -/
def FALLBACK_RESPONSE : String :=
  "I\x27m having trouble responding right now. Please try again."

/-- Embeds `get_chat_response` (lines 152-194).  The OpenAI completion call is
the `api` oracle; every other failure source inside the `try` is the
client construction, which we take to succeed.  On a missing history the
system prompt is installed; the user message is appended before the call,
so it persists even when the call fails; the assistant reply is appended
only on success, and on failure the fixed fallback text is returned
instead of raising. -/
def get_chat_response (chat_sessions : Table (List ChatMsg))
    (user_message session_id : String) (api : Except String String) :
    String × Table (List ChatMsg) :=
  let history :=
    match lookupKey chat_sessions session_id with
    | some h => h
    | none => [⟨"system", SYSTEM_PROMPT⟩]
  let history1 := history ++ [⟨"user", user_message⟩]
  match api with
  | .ok ai_response =>
      (ai_response, setKey chat_sessions session_id (history1 ++ [⟨"assistant", ai_response⟩]))
  | .error _ =>
      (FALLBACK_RESPONSE, setKey chat_sessions session_id history1)

/-- One inbound client frame as the command loop sees it after
`json.loads`: either the decode raised `json.JSONDecodeError`, or it
produced an object whose `type` and `message` fields may each be absent
(absence makes the corresponding `data[...]` access raise `KeyError`). -/
inductive Inbound where
  | badJson
  | obj (type_field : Option String) (message_field : Option String)
  deriving DecidableEq, Repr

/-- The result of handling one inbound frame inside the `while True`
loop: the updated session and chat table, the outbound events produced,
and `raised = some e` when an exception escapes the frame handler (only
`json.JSONDecodeError` is caught inside the loop, so such an exception
terminates the loop). -/
structure StepResult where
  session : AutomationSession
  chat_sessions : Table (List ChatMsg)
  events : List Event
  raised : Option String
  deriving DecidableEq, Repr

/-- The body of the `while True` message loop of `websocket_endpoint`
(lines 578-669) for one inbound frame.  The browser agent run of
`handle_automation_step` is the `runResult` oracle together with the
`runEvents` its step callbacks emitted; the OpenAI completion call is the
`api` oracle.  Tracing the source: undecodable JSON is caught in the loop
and reported as a recoverable `error`; a missing `type` or a
`chat_message` without `message` raises `KeyError`; an automation-class
chat command resets the step fields, moves the status to `running`,
emits a `status_update`, and on success moves to `completed` and emits
`task_complete`, while on failure `handle_automation_step` records the
error and emits an `error` event, and the surrounding
`error_handler(session, "automation")` emits a second `error` event,
moves the status to `error` and re-raises; a non-automation chat command
emits `typing` and then `chat_response` (note `get_chat_response` never
raises); `stop_task` moves the status to `stopped` and emits a
`status_update`; any other `type` value matches no branch and is
silently ignored. -/
def handleMessage (s : AutomationSession) (cs : Table (List ChatMsg)) (m : Inbound)
    (runEvents : List Event) (runResult : Except String String)
    (api : Except String String) : StepResult :=
  match m with
  | .badJson =>
      ⟨s, cs, [s.send_status "error" "Invalid message format" (some "message") (some true)], none⟩
  | .obj none _ => ⟨s, cs, [], some "KeyError: type"⟩
  | .obj (some t) message_field =>
      if t = "chat_message" then
        match message_field with
        | none => ⟨s, cs, [], some "KeyError: message"⟩
        | some user_message =>
            let intent := analyze_user_intent user_message
            if intent.requires_automation then
              let s1 : AutomationSession :=
                { s with step_count := 0, current_step := none, error := none,
                         current_task := some user_message, status := "running" }
              let ack := s1.send_status "status_update"
                ("Starting " ++ intent.task_type ++ " automation") none none
              match runResult with
              | .ok _ =>
                  let s2 : AutomationSession := { s1 with status := "completed" }
                  ⟨s2, cs,
                    ack :: runEvents ++
                      [s2.send_status "task_complete" "Task completed successfully" none none],
                    none⟩
              | .error e =>
                  let s2 : AutomationSession := { s1 with error := some e }
                  let failEv := s2.send_status "error" ("Automation step failed: " ++ e) none none
                  let handlerEv := s2.send_status "error" e (some "automation") none
                  let s3 : AutomationSession := { s2 with status := "error" }
                  ⟨s3, cs, ack :: runEvents ++ [failEv, handlerEv], some e⟩
            else
              let typingEv := s.send_status "typing" "Thinking..." none none
              let res := get_chat_response cs user_message s.session_id api
              ⟨s, res.2, [typingEv, s.send_status "chat_response" res.1 none none], none⟩
      else if t = "stop_task" then
        let s1 : AutomationSession := { s with status := "stopped" }
        ⟨s1, cs, [s1.send_status "status_update" "Task stopped by user" none none], none⟩
      else
        ⟨s, cs, [], none⟩

/-- The process-wide mutable tables of the module that the claims
inspect: `active_sessions` (line 29) and `chat_sessions` (line 36). -/
structure GState where
  active_sessions : Table AutomationSession
  chat_sessions : Table (List ChatMsg)
  deriving DecidableEq, Repr

/-- The externally visible teardown actions `cleanup_session` performs,
in order. -/
inductive CleanupAct where
  | cancelTask
  | awaitTask
  | closeAgent
  | removeSession (id : String)
  deriving DecidableEq, Repr

/-- Embeds `cleanup_session` (lines 451-478): a no-op when the identifier is not
registered; otherwise cancel and await the screenshot task when present,
close the agent when present (its failures are caught and logged), and
delete the registry entry. -/
def cleanup_session (gs : GState) (session_id : String) : GState × List CleanupAct :=
  match lookupKey gs.active_sessions session_id with
  | none => (gs, [])
  | some session =>
      let taskActs : List CleanupAct :=
        match session.screenshot_task with
        | some _ => [.cancelTask, .awaitTask]
        | none => []
      let agentActs : List CleanupAct :=
        match session.agent with
        | some _ => [.closeAgent]
        | none => []
      ({ gs with active_sessions := eraseKey gs.active_sessions session_id },
       taskActs ++ agentActs ++ [.removeSession session_id])

/-- Whether the command loop keeps running after one frame. -/
inductive IterOutcome where
  | continueLoop
  | terminated
  deriving DecidableEq, Repr

/-- The result of one whole loop iteration, outer handlers included. -/
structure IterResult where
  gs : GState
  session : AutomationSession
  events : List Event
  outcome : IterOutcome
  deriving DecidableEq, Repr

/-- One iteration of the command loop together with the surrounding
handlers of `websocket_endpoint` (lines 671-685): when an exception
escapes the loop body, the outer `except Exception` emits an `error`
event with `error_type="connection"` (the socket is still open), and the
`finally` block runs `cleanup_session` when the identifier is still
registered — which is exactly `cleanup_session`'s own guard.  The
registry entry aliases the mutated session object, so it is synced
before anything else. -/
def loopIteration (gs : GState) (s : AutomationSession) (m : Inbound)
    (runEvents : List Event) (runResult : Except String String)
    (api : Except String String) : IterResult :=
  let r := handleMessage s gs.chat_sessions m runEvents runResult api
  let gs1 : GState :=
    ⟨setKey gs.active_sessions s.session_id r.session, r.chat_sessions⟩
  match r.raised with
  | none => ⟨gs1, r.session, r.events, .continueLoop⟩
  | some _ =>
      let connEv := r.session.send_status "error" "WebSocket connection error"
        (some "connection") none
      let cleaned := cleanup_session gs1 s.session_id
      ⟨cleaned.1, r.session, r.events ++ [connEv], .terminated⟩

/-- Result of one pass through `error_handler` when the guarded block
raised (lines 331-368): the event sent (when the socket is connected),
the session after its status and error fields are updated, the global
state after the registry entry is synced with the mutated session and —
for the `browser` and `agent` error types — after `cleanup_session`
ran, plus the cleanup actions performed. -/
structure ReportResult where
  gs : GState
  session : AutomationSession
  events : List Event
  acts : List CleanupAct
  deriving DecidableEq, Repr

/-- Embeds `error_handler` on a raised exception (lines 336-368): send the
`error` event first (so its status snapshot predates the update), then
set `status := "error"` and record the message, then clean the session
up when the error type is `browser` or `agent`, and re-raise. -/
def error_handler_report (gs : GState) (s : AutomationSession)
    (error_type error_message : String) (ws_connected : Bool) : ReportResult :=
  let evs : List Event :=
    if ws_connected then [s.send_status "error" error_message (some error_type) none] else []
  let s1 : AutomationSession := { s with status := "error", error := some error_message }
  let gs1 : GState := ⟨setKey gs.active_sessions s.session_id s1, gs.chat_sessions⟩
  if error_type = "browser" ∨ error_type = "agent" then
    let cleaned := cleanup_session gs1 s.session_id
    ⟨cleaned.1, s1, evs, cleaned.2⟩
  else
    ⟨gs1, s1, evs, []⟩

/-- Embeds `active_sessions[session_id] = session` at session open (line 559). -/
def registerSession (gs : GState) (s : AutomationSession) : GState :=
  ⟨setKey gs.active_sessions s.session_id s, gs.chat_sessions⟩

/-- The open path of `websocket_endpoint` when
`initialize_automation_agent` raises (lines 552-563 and 671-685): the
fresh session is created and registered; the failure is wrapped in
`AgentError("Failed to initialize automation agent: ...")` and hits
`error_handler(session, "agent")`, which reports, tears the session
down (the error type is `agent`), and re-raises; the outer handler then
emits a `connection` error event on the still-open socket, and the
`finally` block finds the identifier already deregistered. -/
def open_session_failing_init (gs : GState) (session_id err : String) :
    GState × List Event :=
  let s := AutomationSession.init session_id
  let gs1 := registerSession gs s
  let r := error_handler_report gs1 s "agent"
    ("Failed to initialize automation agent: " ++ err) true
  let connEv := r.session.send_status "error" "WebSocket connection error"
    (some "connection") none
  let final := cleanup_session r.gs session_id
  (final.1, r.events ++ [connEv])

/-- A lifecycle transition allowed by the specification sentence of C3
(spec.md §3): `connected → running → {completed | stopped | error}`,
`error` reachable from any state, and `running` re-enterable from
`connected`, `completed`, or `stopped`.  Stated from the spec words, to
be compared with the embedded step function. -/
def specLifecycleTransition (a b : String) : Prop :=
  (a = "connected" ∧ b = "running") ∨
  (a = "running" ∧ (b = "completed" ∨ b = "stopped" ∨ b = "error")) ∨
  b = "error" ∨
  ((a = "completed" ∨ a = "stopped") ∧ b = "running")

end LegalEase

namespace LegalEase

/-- Looking a key up right after setting it yields the written value. -/
theorem lookupKey_setKey {α : Type} (l : Table α) (id : String) (v : α) :
    lookupKey (setKey l id v) id = some v := by
  induction l with
  | nil => simp [setKey, lookupKey]
  | cons p rest ih =>
      by_cases h : p.1 = id
      · simp [setKey, lookupKey, h]
      · simp [setKey, lookupKey, h, ih]

/-- Looking a key up right after erasing it yields nothing. -/
theorem lookupKey_eraseKey {α : Type} (l : Table α) (id : String) :
    lookupKey (eraseKey l id) id = none := by
  induction l with
  | nil => rfl
  | cons p rest ih =>
      by_cases h : p.1 = id
      · simp [eraseKey, h, ih]
      · simp [eraseKey, lookupKey, h, ih]

end LegalEase


namespace LegalEase

/-- C6: `analyze_user_intent` scans the keyword groups in the fixed
priority order tax/filing first, then generic form terms, then
help/guidance terms; the first group containing a keyword of the
(lowercased) input determines the returned classification, and an input
matching no group falls through to the default chat classification with
`requires_automation = false` and the fixed low confidence `0.5`. -/
theorem C6_intent_priority (msg : String) :
    (anyKeyword tax_keywords (toLowerStr msg) = true →
      (analyze_user_intent msg).intent = "tax_filing" ∧
      (analyze_user_intent msg).requires_automation = true ∧
      (analyze_user_intent msg).task_type = "tax_filing") ∧
    (anyKeyword tax_keywords (toLowerStr msg) = false →
      anyKeyword form_keywords (toLowerStr msg) = true →
      analyze_user_intent msg = ⟨"form_filling", true, "form_filling", 0.8, none⟩) ∧
    (anyKeyword tax_keywords (toLowerStr msg) = false →
      anyKeyword form_keywords (toLowerStr msg) = false →
      anyKeyword help_keywords (toLowerStr msg) = true →
      analyze_user_intent msg = ⟨"help", false, "chat", 0.6, none⟩) ∧
    (anyKeyword tax_keywords (toLowerStr msg) = false →
      anyKeyword form_keywords (toLowerStr msg) = false →
      anyKeyword help_keywords (toLowerStr msg) = false →
      analyze_user_intent msg = ⟨"chat", false, "chat", 0.5, none⟩ ∧
      (analyze_user_intent msg).requires_automation = false ∧
      (analyze_user_intent msg).confidence = 0.5) := by
  refine ⟨?_, ?_, ?_, ?_⟩
  · intro h1
    simp only [analyze_user_intent, h1, if_true]
    split_ifs <;> simp
  · intro h1 h2
    simp [analyze_user_intent, h1, h2]
  · intro h1 h2 h3
    simp [analyze_user_intent, h1, h2, h3]
  · intro h1 h2 h3
    refine ⟨?_, ?_, ?_⟩ <;> simp [analyze_user_intent, h1, h2, h3]

/-- C6 witness: the four hypotheses of `C6_intent_priority` discharged
at concrete inputs, one per keyword-group branch. -/
theorem C6_intent_priority_witness :
    ((analyze_user_intent "tax").intent = "tax_filing" ∧
      (analyze_user_intent "tax").requires_automation = true ∧
      (analyze_user_intent "tax").task_type = "tax_filing") ∧
    analyze_user_intent "fill the form" = ⟨"form_filling", true, "form_filling", 0.8, none⟩ ∧
    analyze_user_intent "what is this" = ⟨"help", false, "chat", 0.6, none⟩ ∧
    (analyze_user_intent "hi" = ⟨"chat", false, "chat", 0.5, none⟩ ∧
      (analyze_user_intent "hi").requires_automation = false ∧
      (analyze_user_intent "hi").confidence = 0.5) :=
  ⟨(C6_intent_priority "tax").1 (by decide),
   (C6_intent_priority "fill the form").2.1 (by decide) (by decide),
   (C6_intent_priority "what is this").2.2.1 (by decide) (by decide) (by decide),
   (C6_intent_priority "hi").2.2.2 (by decide) (by decide) (by decide)⟩

/-- C7: an input containing a filing/tax keyword together with a
start-group action keyword classifies as automation-requiring tax
filing with `action = start_filing` and confidence `0.95`, strictly
above the group-default tier `0.9`. -/
theorem C7_filing_start_confidence (msg : String)
    (htax : anyKeyword tax_keywords (toLowerStr msg) = true)
    (hstart : anyKeyword start_actions (toLowerStr msg) = true) :
    (analyze_user_intent msg).requires_automation = true ∧
    (analyze_user_intent msg).task_type = "tax_filing" ∧
    (analyze_user_intent msg).action = some "start_filing" ∧
    (analyze_user_intent msg).confidence = 0.95 ∧
    (0.9 : ℚ) < (analyze_user_intent msg).confidence := by
  have h : analyze_user_intent msg = ⟨"tax_filing", true, "tax_filing", 0.95, some "start_filing"⟩ := by
    simp [analyze_user_intent, htax, hstart]
  rw [h]
  refine ⟨rfl, rfl, rfl, rfl, ?_⟩
  norm_num

/-- C7 witness: both hypotheses of `C7_filing_start_confidence`
discharged at the concrete input "Start ITR filing for AY 2023-24". -/
theorem C7_filing_start_confidence_witness :
    (analyze_user_intent "Start ITR filing for AY 2023-24").requires_automation = true ∧
    (analyze_user_intent "Start ITR filing for AY 2023-24").task_type = "tax_filing" ∧
    (analyze_user_intent "Start ITR filing for AY 2023-24").action = some "start_filing" ∧
    (analyze_user_intent "Start ITR filing for AY 2023-24").confidence = 0.95 ∧
    (0.9 : ℚ) < (analyze_user_intent "Start ITR filing for AY 2023-24").confidence :=
  C7_filing_start_confidence "Start ITR filing for AY 2023-24" (by decide) (by decide)

end LegalEase

namespace LegalEase

/-- C2 counterexample: the claim asserts that for the chat text
"Help me understand filing" the classifier yields
`requiresAutomation = false` (help/guidance group) and the handler emits
`typing` then `chat_response`.  In the code the tax group is scanned
first and the input contains the tax keyword "filing", so the classifier
yields `requiresAutomation = true` and the handler takes the automation
path, emitting `status_update` and `task_complete` and no `typing` or
`chat_response` event. -/
theorem C2_help_filing_counterexample :
    (analyze_user_intent "Help me understand filing").requires_automation = true ∧
    (handleMessage (AutomationSession.init "s") []
        (Inbound.obj (some "chat_message") (some "Help me understand filing"))
        [] (Except.ok "done") (Except.ok "reply")).events.map Event.type =
      ["status_update", "task_complete"] :=
  ⟨by decide, rfl⟩

/-- C2 amended: for the chat_message text "Help me understand filing"
the classifier yields `requiresAutomation = true` (the tax/filing group
matches on the keyword "filing" before the help group is scanned, with
secondary action `help_guide` and confidence `0.7`), and handling the
command takes the automation path: the first emitted event is a
`status_update` whose status snapshot is `running`, no `typing` or
`chat_response` event is emitted, and the session ends the command in
status `completed` on run success (`error` on run failure). -/
theorem C2_help_filing_amended (s : AutomationSession) (cs : Table (List ChatMsg))
    (rr api : Except String String) :
    analyze_user_intent "Help me understand filing" =
      ⟨"tax_filing", true, "tax_filing", 0.7, some "help_guide"⟩ ∧
    (handleMessage s cs (Inbound.obj (some "chat_message") (some "Help me understand filing"))
        [] rr api).events.map Event.type =
      (match rr with
       | .ok _ => ["status_update", "task_complete"]
       | .error _ => ["status_update", "error", "error"]) ∧
    ((handleMessage s cs (Inbound.obj (some "chat_message") (some "Help me understand filing"))
        [] rr api).events.head?.map Event.status = some "running") ∧
    (handleMessage s cs (Inbound.obj (some "chat_message") (some "Help me understand filing"))
        [] rr api).session.status =
      (match rr with
       | .ok _ => "completed"
       | .error _ => "error") := by
  refine ⟨rfl, ?_, ?_, ?_⟩ <;> cases rr <;> rfl

end LegalEase

namespace LegalEase

/-- C1 counterexample: the claim asserts every malformed inbound message
leaves the status unchanged, emits exactly one recoverable `error`
event, and never closes the connection.  In the code a decoded object
with an unknown `type` matches no handler branch and is silently
ignored — zero events are emitted — and a decoded object with no `type`
field raises `KeyError`, which the loop does not catch: the iteration
terminates the command loop. -/
theorem C1_malformed_counterexample :
    (handleMessage (AutomationSession.init "s") []
        (Inbound.obj (some "unknown_type") none) [] (Except.ok "") (Except.ok "")).events = [] ∧
    (loopIteration ⟨[("s", AutomationSession.init "s")], []⟩ (AutomationSession.init "s")
        (Inbound.obj none none) [] (Except.ok "") (Except.ok "")).outcome =
      IterOutcome.terminated :=
  ⟨rfl, rfl⟩

/-- C1 amended: undecodable JSON is caught inside the loop and yields
exactly one recoverable `error` event (`error_type = "message"`) with
the session unchanged and the loop continuing; a decoded object with an
unknown `type` is silently ignored (no event, session unchanged, loop
continues); a decoded object with no `type` field, or a `chat_message`
with no `message` field, raises `KeyError`, which the loop does not
catch: the loop terminates, the outer handler emits one
`connection`-typed `error` event, and the session is removed from the
registry. -/
theorem C1_malformed_amended :
    (∀ s cs re rr api,
      handleMessage s cs Inbound.badJson re rr api =
        ⟨s, cs, [⟨"error", "Invalid message format", s.status, some "message", some true⟩], none⟩) ∧
    (∀ s cs t mf re rr api, t ≠ "chat_message" → t ≠ "stop_task" →
      handleMessage s cs (Inbound.obj (some t) mf) re rr api = ⟨s, cs, [], none⟩) ∧
    (∀ s cs mf re rr api,
      handleMessage s cs (Inbound.obj none mf) re rr api =
        ⟨s, cs, [], some "KeyError: type"⟩) ∧
    (∀ s cs re rr api,
      handleMessage s cs (Inbound.obj (some "chat_message") none) re rr api =
        ⟨s, cs, [], some "KeyError: message"⟩) ∧
    (∀ gs s mf re rr api,
      (loopIteration gs s (Inbound.obj none mf) re rr api).outcome = IterOutcome.terminated ∧
      (loopIteration gs s (Inbound.obj none mf) re rr api).events =
        [⟨"error", "WebSocket connection error", s.status, some "connection", none⟩] ∧
      lookupKey (loopIteration gs s (Inbound.obj none mf) re rr api).gs.active_sessions
        s.session_id = none) := by
  refine ⟨fun s cs re rr api => rfl, ?_, fun s cs mf re rr api => rfl,
    fun s cs re rr api => rfl, ?_⟩
  · intro s cs t mf re rr api h1 h2
    simp [handleMessage, h1, h2]
  · intro gs s mf re rr api
    refine ⟨rfl, rfl, ?_⟩
    show lookupKey (cleanup_session ⟨setKey gs.active_sessions s.session_id s, gs.chat_sessions⟩
      s.session_id).1.active_sessions s.session_id = none
    simp only [cleanup_session, lookupKey_setKey]
    exact lookupKey_eraseKey _ _

/-- C1 witness: the unknown-`type` hypotheses of `C1_malformed_amended`
discharged at the concrete type tag "bogus". -/
theorem C1_malformed_witness :
    handleMessage (AutomationSession.init "w1") [] (Inbound.obj (some "bogus") none)
      [] (Except.ok "") (Except.ok "") =
      ⟨AutomationSession.init "w1", [], [], none⟩ :=
  C1_malformed_amended.2.1 (AutomationSession.init "w1") [] "bogus" none []
    (Except.ok "") (Except.ok "") (by decide) (by decide)

end LegalEase

namespace LegalEase

/-- C3 counterexample: the claim allows `stopped` to be entered only
from `running`.  In the code a `stop_task` command sets the status to
`stopped` from any state: processing `stop_task` as the very first
command moves a freshly connected session directly from `connected` to
`stopped` without ever entering `running`, a transition the claimed
lifecycle relation rejects. -/
theorem C3_lifecycle_counterexample :
    (AutomationSession.init "s").status = "connected" ∧
    (handleMessage (AutomationSession.init "s") [] (Inbound.obj (some "stop_task") none)
        [] (Except.ok "") (Except.ok "")).session.status = "stopped" ∧
    ¬ specLifecycleTransition "connected" "stopped" :=
  ⟨rfl, rfl, by simp [specLifecycleTransition]⟩

/-- C3 amended: `connected` is the only initial state and `error` is
reachable from any state; per handled command the status either stays
unchanged or moves to `completed`, `error`, or `stopped`; every
automation command enters `running` first (its `status_update`
acknowledgment snapshots status `running`) from whatever live state the
session was in, and leaves it to `completed` or `error` within the same
command; `stop_task` moves any live state — including `connected`,
without passing through `running` — directly to `stopped`; `completed`,
`stopped`, and `running` may each be entered repeatedly (once per
command). -/
theorem C3_lifecycle_amended :
    (∀ id, (AutomationSession.init id).status = "connected") ∧
    (∀ s cs m re rr api,
      (handleMessage s cs m re rr api).session.status = s.status ∨
      (handleMessage s cs m re rr api).session.status = "completed" ∨
      (handleMessage s cs m re rr api).session.status = "error" ∨
      (handleMessage s cs m re rr api).session.status = "stopped") ∧
    (∀ s cs mf re rr api,
      (handleMessage s cs (Inbound.obj (some "stop_task") mf) re rr api).session.status =
        "stopped") ∧
    (∀ s cs um re rr api,
      (handleMessage s cs (Inbound.obj (some "chat_message") (some um)) re rr api).events.head? =
        some (if (analyze_user_intent um).requires_automation then
                ⟨"status_update", "Starting " ++ (analyze_user_intent um).task_type ++
                  " automation", "running", none, none⟩
              else ⟨"typing", "Thinking...", s.status, none, none⟩)) := by
  refine ⟨fun id => rfl, ?_, ?_, ?_⟩
  · intro s cs m re rr api
    match m with
    | .badJson => exact Or.inl rfl
    | .obj none mf => exact Or.inl rfl
    | .obj (some t) mf =>
        by_cases h1 : t = "chat_message"
        · subst h1
          match mf with
          | none => exact Or.inl rfl
          | some um =>
              by_cases h2 : (analyze_user_intent um).requires_automation
              · cases rr with
                | ok r => simp [handleMessage, h2]
                | error e => simp [handleMessage, h2]
              · simp [handleMessage, h2]
        · by_cases h2 : t = "stop_task"
          · subst h2; simp [handleMessage, h1]
          · simp [handleMessage, h1, h2]
  · intro s cs mf re rr api
    simp [handleMessage]
  · intro s cs um re rr api
    by_cases h2 : (analyze_user_intent um).requires_automation
    · cases rr with
      | ok r => simp [handleMessage, h2, AutomationSession.send_status]
      | error e => simp [handleMessage, h2, AutomationSession.send_status]
    · simp [handleMessage, h2, AutomationSession.send_status]

end LegalEase

namespace LegalEase

/-- C4 counterexample: the claim asserts that when the reply collaborator
fails during a non-automation chat command the orchestrator emits an
`error` event.  In the code `get_chat_response` catches the failure
itself and returns a fixed fallback string, so the handler emits
`typing` followed by a normal `chat_response` carrying the fallback —
no `error` event at all. -/
theorem C4_generation_failure_counterexample :
    (handleMessage (AutomationSession.init "s") []
        (Inbound.obj (some "chat_message") (some "hi")) [] (Except.ok "")
        (Except.error "api failure")).events =
      [⟨"typing", "Thinking...", "connected", none, none⟩,
       ⟨"chat_response", FALLBACK_RESPONSE, "connected", none, none⟩] :=
  rfl

/-- C4 amended: whenever the reply-generation collaborator fails while a
non-automation chat command is handled, `get_chat_response` swallows the
failure and returns the fixed fallback text; the handler emits a
`typing` event followed by a `chat_response` event carrying the
fallback — no `error` event — and the session remains usable: its state
is unchanged and the command loop continues. -/
theorem C4_generation_failure_amended (s : AutomationSession) (cs : Table (List ChatMsg))
    (um : String) (re : List Event) (rr : Except String String) (err : String)
    (h : (analyze_user_intent um).requires_automation = false) :
    handleMessage s cs (Inbound.obj (some "chat_message") (some um)) re rr
        (Except.error err) =
      ⟨s, (get_chat_response cs um s.session_id (Except.error err)).2,
        [⟨"typing", "Thinking...", s.status, none, none⟩,
         ⟨"chat_response", FALLBACK_RESPONSE, s.status, none, none⟩], none⟩ := by
  simp [handleMessage, h, AutomationSession.send_status, get_chat_response]

/-- C4 witness: the non-automation hypothesis of
`C4_generation_failure_amended` discharged at the concrete chat text
"hi" with a failing collaborator. -/
theorem C4_generation_failure_witness :
    handleMessage (AutomationSession.init "w4") []
        (Inbound.obj (some "chat_message") (some "hi")) [] (Except.ok "run")
        (Except.error "down") =
      ⟨AutomationSession.init "w4",
        (get_chat_response [] "hi" "w4" (Except.error "down")).2,
        [⟨"typing", "Thinking...", "connected", none, none⟩,
         ⟨"chat_response", FALLBACK_RESPONSE, "connected", none, none⟩], none⟩ :=
  C4_generation_failure_amended (AutomationSession.init "w4") [] "hi" []
    (Except.ok "run") "down" (by decide)

end LegalEase

namespace LegalEase

/-- C5: when agent initialization fails during session open, the
`error_handler(session, "agent")` pass emits exactly one `error` event
with `error_type = "agent"`, and in the state it hands back — before
anything else happens — the session identifier no longer resolves in the
registry (the teardown ran because the error type is `agent`); the full
failing-open path then emits only one further event (the outer handler's
`connection` error) and ends with the identifier still absent. -/
theorem C5_agent_init_failure (gs : GState) (id err : String) :
    (error_handler_report (registerSession gs (AutomationSession.init id))
        (AutomationSession.init id) "agent"
        ("Failed to initialize automation agent: " ++ err) true).events =
      [⟨"error", "Failed to initialize automation agent: " ++ err, "connected",
        some "agent", none⟩] ∧
    lookupKey (error_handler_report (registerSession gs (AutomationSession.init id))
        (AutomationSession.init id) "agent"
        ("Failed to initialize automation agent: " ++ err) true).gs.active_sessions id =
      none ∧
    CleanupAct.removeSession id ∈
      (error_handler_report (registerSession gs (AutomationSession.init id))
        (AutomationSession.init id) "agent"
        ("Failed to initialize automation agent: " ++ err) true).acts ∧
    (open_session_failing_init gs id err).2.map Event.error_type =
      [some "agent", some "connection"] ∧
    lookupKey (open_session_failing_init gs id err).1.active_sessions id = none := by
  refine ⟨?_, ?_, ?_, ?_, ?_⟩ <;>
    simp [error_handler_report, registerSession, cleanup_session, open_session_failing_init,
      lookupKey_setKey, lookupKey_eraseKey, AutomationSession.init,
      AutomationSession.send_status]

end LegalEase

namespace LegalEase

/-- C8: `cleanup_session` is idempotent.  Calling it with an identifier
absent from the registry is a no-op performing no actions; calling it a
second time with the same identifier is likewise a no-op, so no release
or deregistration happens twice; and a single effective call cancels and
awaits the screenshot task exactly when one exists, closes the agent
exactly when one exists, and removes the identifier from the registry
exactly once. -/
theorem C8_cleanup_idempotent (gs : GState) (id : String) :
    (lookupKey gs.active_sessions id = none → cleanup_session gs id = (gs, [])) ∧
    cleanup_session (cleanup_session gs id).1 id = ((cleanup_session gs id).1, []) ∧
    lookupKey (cleanup_session gs id).1.active_sessions id = none ∧
    (∀ sess, lookupKey gs.active_sessions id = some sess →
      (cleanup_session gs id).2.count (CleanupAct.removeSession id) = 1 ∧
      (CleanupAct.cancelTask ∈ (cleanup_session gs id).2 ↔ sess.screenshot_task.isSome) ∧
      (CleanupAct.awaitTask ∈ (cleanup_session gs id).2 ↔ sess.screenshot_task.isSome) ∧
      (CleanupAct.closeAgent ∈ (cleanup_session gs id).2 ↔ sess.agent.isSome)) := by
  refine ⟨?_, ?_, ?_, ?_⟩
  · intro h
    simp [cleanup_session, h]
  · rcases hl : lookupKey gs.active_sessions id with _ | sess
    · simp [cleanup_session, hl]
    · simp [cleanup_session, hl, lookupKey_eraseKey]
  · rcases hl : lookupKey gs.active_sessions id with _ | sess
    · simp [cleanup_session, hl]
    · simp [cleanup_session, hl, lookupKey_eraseKey]
  · intro sess hl
    rcases ht : sess.screenshot_task with _ | t <;> rcases ha : sess.agent with _ | a <;>
      simp [cleanup_session, hl, ht, ha, List.count_cons]

/-- C8 witness: the absent-key hypothesis discharged on an empty
registry, and the effective-call hypotheses discharged on a registry
holding one session that owns both a screenshot task and an agent. -/
theorem C8_cleanup_idempotent_witness :
    cleanup_session (⟨[], []⟩ : GState) "a" = ((⟨[], []⟩ : GState), []) ∧
    ((cleanup_session
        (⟨[("a", ⟨"a", "connected", none, 0, none, none, some (), some ()⟩)], []⟩ : GState)
        "a").2.count (CleanupAct.removeSession "a") = 1 ∧
      (CleanupAct.cancelTask ∈ (cleanup_session
        (⟨[("a", ⟨"a", "connected", none, 0, none, none, some (), some ()⟩)], []⟩ : GState)
        "a").2 ↔
        (Option.some ()).isSome) ∧
      (CleanupAct.awaitTask ∈ (cleanup_session
        (⟨[("a", ⟨"a", "connected", none, 0, none, none, some (), some ()⟩)], []⟩ : GState)
        "a").2 ↔
        (Option.some ()).isSome) ∧
      (CleanupAct.closeAgent ∈ (cleanup_session
        (⟨[("a", ⟨"a", "connected", none, 0, none, none, some (), some ()⟩)], []⟩ : GState)
        "a").2 ↔
        (Option.some ()).isSome)) :=
  ⟨(C8_cleanup_idempotent (⟨[], []⟩ : GState) "a").1 rfl,
   (C8_cleanup_idempotent
      (⟨[("a", ⟨"a", "connected", none, 0, none, none, some (), some ()⟩)], []⟩ : GState)
      "a").2.2.2 ⟨"a", "connected", none, 0, none, none, some (), some ()⟩ (by decide)⟩

/-- C10: `cleanup_session` never touches the process-wide
`chat_sessions` table: after teardown the table is exactly what it was,
and in particular the history entry that `get_chat_response` created for
the torn-down session identifier is still present, unchanged. -/
theorem C10_cleanup_frame (gs : GState) (id um : String) (api : Except String String) :
    (cleanup_session gs id).1.chat_sessions = gs.chat_sessions ∧
    (cleanup_session
        ⟨gs.active_sessions, (get_chat_response gs.chat_sessions um id api).2⟩
        id).1.chat_sessions =
      (get_chat_response gs.chat_sessions um id api).2 ∧
    (lookupKey (get_chat_response gs.chat_sessions um id api).2 id).isSome = true := by
  refine ⟨?_, ?_, ?_⟩
  · rcases hl : lookupKey gs.active_sessions id with _ | sess <;> simp [cleanup_session, hl]
  · rcases hl : lookupKey gs.active_sessions id with _ | sess <;> simp [cleanup_session, hl]
  · rcases api with e | r <;> simp [get_chat_response, lookupKey_setKey]

end LegalEase
